import Mathlib

/-!
Verification development for the EJM applicant-registration dashboard
(`registrations.py`).  The Python source is shallowly embedded below:
dates are a `year/month/day` structure over `Nat` with proleptic-Gregorian
day arithmetic, pandas rows become a `Record` structure whose nullable
columns are `Option`s, and each callback body becomes a pure Lean
function over lists of records.
-/

namespace Registrations

/-- Gregorian leap-year test (as used by `pandas.Timestamp` arithmetic). -/
def isLeap (y : Nat) : Bool :=
  decide ((y % 4 = 0 ∧ y % 100 ≠ 0) ∨ y % 400 = 0)

/-- Number of days in month `m` of year `y` (months numbered 1..12). -/
def daysInMonth (y m : Nat) : Nat :=
  if m = 2 then (if isLeap y then 29 else 28)
  else if m = 4 ∨ m = 6 ∨ m = 9 ∨ m = 11 then 30
  else 31

/-- Days in year `y` that precede the first day of month `m` (for `1 ≤ m ≤ 12`). -/
def daysBeforeMonth (y : Nat) : Nat → Nat
  | 0 => 0
  | 1 => 0
  | m + 1 => daysBeforeMonth y m + daysInMonth y m

/-- Days in all years strictly before year `y` (proleptic Gregorian, counting
from year 0). -/
def daysBeforeYear (y : Nat) : Nat :=
  365 * y + (y + 3) / 4 - (y + 99) / 100 + (y + 399) / 400

/-- A calendar date, mirroring the date part of a `pandas.Timestamp`. -/
structure Date where
  year : Nat
  month : Nat
  day : Nat
deriving DecidableEq, Repr

/-- Absolute day number of a date (days since 0000-01-01). Differences of
`toDays` model `pandas` timestamp subtraction in whole days. -/
def toDays (d : Date) : Nat :=
  daysBeforeYear d.year + daysBeforeMonth d.year d.month + (d.day - 1)

/-- A valid calendar date: month 1..12, day within the month, and a positive
year (every date handled by the dashboard is far above year 1). -/
def Date.valid (d : Date) : Prop :=
  1 ≤ d.year ∧ 1 ≤ d.month ∧ d.month ≤ 12 ∧ 1 ≤ d.day ∧ d.day ≤ daysInMonth d.year d.month

instance (d : Date) : Decidable d.valid := by
  unfold Date.valid; infer_instance

/-- Source function `get_academic_year` from `registrations.py`: the academic year of a date is
its calendar year if the month is June or later, else the previous year. -/
def get_academic_year (date : Date) : Nat :=
  if 6 ≤ date.month then date.year else date.year - 1

/-- Source function `date_to_academic_days` from `update_graph`: the signed day difference
between `date` and June 1 of `academic_year`. -/
def date_to_academic_days (date : Date) (academic_year : Nat) : Int :=
  (toDays date : Int) - (toDays ⟨academic_year, 6, 1⟩ : Int)

/-- Date `x` lies in the academic-year span June 1 of `Y` .. May 31 of `Y+1`. -/
def inSpan (Y : Nat) (x : Date) : Prop :=
  toDays ⟨Y, 6, 1⟩ ≤ toDays x ∧ toDays x ≤ toDays ⟨Y + 1, 5, 31⟩

/- Calendar arithmetic lemmas. -/

theorem isLeap_iff (y : Nat) :
    isLeap y = true ↔ ((y % 4 = 0 ∧ y % 100 ≠ 0) ∨ y % 400 = 0) := by
  simp [isLeap]

set_option maxHeartbeats 1000000 in
theorem daysBeforeYear_succ (y : Nat) :
    daysBeforeYear (y + 1) = daysBeforeYear y + (if isLeap y then 366 else 365) := by
  unfold daysBeforeYear
  by_cases hb : isLeap y = true
  · rw [if_pos hb]
    have := (isLeap_iff y).mp hb
    omega
  · rw [if_neg hb]
    rw [isLeap_iff] at hb
    omega

theorem daysBeforeYear_strict_mono {z y : Nat} (h : z < y) :
    daysBeforeYear z + 365 ≤ daysBeforeYear y := by
  induction y with
  | zero => omega
  | succ n ih =>
      rw [daysBeforeYear_succ]
      rcases Nat.lt_succ_iff_lt_or_eq.mp h with h' | h'
      · have := ih h'
        split <;> omega
      · subst h'
        split <;> omega

set_option maxHeartbeats 2000000 in
/-- Every valid date lies inside the June-to-May span of its own academic year. -/
theorem inSpan_get_academic_year (d : Date) (h : d.valid) :
    inSpan (get_academic_year d) d := by
  obtain ⟨y, m, day⟩ := d
  simp only [Date.valid] at h
  obtain ⟨hy, hm1, hm2, hd1, hd2⟩ := h
  obtain ⟨z, rfl⟩ : ∃ z, y = z + 1 := ⟨y - 1, by omega⟩
  simp only [inSpan, toDays, get_academic_year] at *
  interval_cases m <;>
    simp_all [daysBeforeMonth, daysInMonth, daysBeforeYear_succ] <;>
    rcases Bool.eq_false_or_eq_true (isLeap z) with h1 | h1 <;>
    rcases Bool.eq_false_or_eq_true (isLeap (z + 1)) with h2 | h2 <;>
    rcases Bool.eq_false_or_eq_true (isLeap (z + 2)) with h3 | h3 <;>
    simp_all <;> omega

/-- May 31 closing one span comes strictly before June 1 opening a later span. -/
theorem span_end_lt_next_start {Y1 Y2 : Nat} (h : Y1 < Y2) :
    toDays ⟨Y1 + 1, 5, 31⟩ < toDays ⟨Y2, 6, 1⟩ := by
  have hle : Y1 + 1 = Y2 ∨ Y1 + 1 < Y2 := by omega
  simp only [toDays]
  rcases hle with h' | h'
  · subst h'
    simp only [daysBeforeMonth, daysInMonth]
    rcases Bool.eq_false_or_eq_true (isLeap (Y1 + 1)) with h1 | h1 <;> simp_all
  · have := daysBeforeYear_strict_mono h'
    simp only [daysBeforeMonth, daysInMonth] at *
    rcases Bool.eq_false_or_eq_true (isLeap (Y1 + 1)) with h1 | h1 <;>
    rcases Bool.eq_false_or_eq_true (isLeap Y2) with h2 | h2 <;>
      simp_all <;> omega

/-- A date lies in at most one academic-year span. -/
theorem inSpan_unique {Y1 Y2 : Nat} {x : Date} (h1 : inSpan Y1 x) (h2 : inSpan Y2 x) :
    Y1 = Y2 := by
  by_contra hne
  rcases Nat.lt_or_ge Y1 Y2 with h | h
  · have := span_end_lt_next_start h
    obtain ⟨_, hb⟩ := h1
    obtain ⟨ha, _⟩ := h2
    omega
  · have hlt : Y2 < Y1 := by omega
    have := span_end_lt_next_start hlt
    obtain ⟨ha, _⟩ := h1
    obtain ⟨_, hb⟩ := h2
    omega

/-- On the spans of its own academic years, `get_academic_year` is determined by
span membership. -/
theorem get_academic_year_eq_of_inSpan {Y : Nat} {d : Date} (hv : d.valid)
    (hs : inSpan Y d) : get_academic_year d = Y :=
  inSpan_unique (inSpan_get_academic_year d hv) hs

/-- A span is at most 366 days long, so its last day is at most 365 days after
its first. -/
theorem span_length_le (Y : Nat) :
    toDays ⟨Y + 1, 5, 31⟩ ≤ toDays ⟨Y, 6, 1⟩ + 365 := by
  simp only [toDays, daysBeforeYear_succ, daysBeforeMonth, daysInMonth]
  rcases Bool.eq_false_or_eq_true (isLeap Y) with h1 | h1 <;>
  rcases Bool.eq_false_or_eq_true (isLeap (Y + 1)) with h2 | h2 <;>
    simp_all

/-! ## Records and the load pipeline -/

/-- A raw date field as delivered by the upstream JSON: missing/null, a
well-formed date, or an unparseable string (`pd.to_datetime` raises on the
latter with the default `errors` setting). -/
inductive RawDate where
  | null : RawDate
  | valid : Date → RawDate
  | malformed : RawDate
deriving DecidableEq, Repr

/-- One raw upstream record (`r.json()` row) with the columns the dashboard
uses. -/
structure RawRecord where
  enrolldate : RawDate
  date_last_login : RawDate
  degreetype : Option String
  primary_field : Option String
  country : Option String
  tier : Option Nat
deriving DecidableEq, Repr

/-- A row of `registration_data` after preprocessing: nullable date and
categorical columns plus the derived academic-year columns. -/
structure Record where
  enrolldate : Option Date
  date_last_login : Option Date
  degreetype : Option String
  primary_field : Option String
  country : Option String
  tier : Option Nat
  academic_year : Option Nat
  login_academic_year : Option Nat
deriving DecidableEq, Repr

/-- Successful `pd.to_datetime` of one cell: null becomes `NaT` (`none`). -/
def parseDate : RawDate → Option Date
  | .null => none
  | .valid d => some d
  | .malformed => none

/-- Row after the two `pd.to_datetime` column conversions (lines 22-23). -/
def mkRecord (r : RawRecord) : Record :=
  { enrolldate := parseDate r.enrolldate
    date_last_login := parseDate r.date_last_login
    degreetype := r.degreetype
    primary_field := r.primary_field
    country := r.country
    tier := r.tier
    academic_year := none
    login_academic_year := none }

/-- The fixed `cutoff_date = pd.to_datetime('2021-06-01')`. -/
def cutoff_date : Date := ⟨2021, 6, 1⟩

/-- The pandas comparison `col >= cutoff_date`: `NaT` compares false. -/
def geCutoff : Option Date → Bool
  | some d => decide (toDays cutoff_date ≤ toDays d)
  | none => false

/-- Lines 37-38: attach `academic_year` and `login_academic_year`
(`NaT` yields `NaN`, i.e. `none`). -/
def withYears (r : Record) : Record :=
  { r with
    academic_year := r.enrolldate.map get_academic_year
    login_academic_year := r.date_last_login.map get_academic_year }

/-- The module-level load pipeline (lines 17-38): `pd.to_datetime` on each date
column (raising — `.error` — if any cell is unparseable), the two cutoff
filters, then the derived academic-year columns. -/
def load (raws : List RawRecord) : Except Unit (List Record) :=
  if raws.any (fun r => decide (r.enrolldate = RawDate.malformed)) then .error ()
  else if raws.any (fun r => decide (r.date_last_login = RawDate.malformed)) then .error ()
  else
    let parsed := raws.map mkRecord
    let f1 := parsed.filter (fun r => geCutoff r.enrolldate)
    let f2 := f1.filter (fun r => geCutoff r.date_last_login)
    .ok (f2.map withYears)

/-- The `date-field-selector` radio value: `'enrolldate'` or
`'date_last_login'`. -/
inductive DateField where
  | enrolldate : DateField
  | date_last_login : DateField
deriving DecidableEq, Repr

/-- The date column selected by the view mode. -/
def Record.dateFor (r : Record) : DateField → Option Date
  | .enrolldate => r.enrolldate
  | .date_last_login => r.date_last_login

/-- The derived year column active under the view mode (`academic_year` for
enrollment, `login_academic_year` for last login). -/
def Record.yearFor (r : Record) : DateField → Option Nat
  | .enrolldate => r.academic_year
  | .date_last_login => r.login_academic_year

/-- Pandas `col.isin(values)` on a nullable column: a null cell matches no
value list. -/
def optIsin [BEq α] : Option α → List α → Bool
  | none, _ => false
  | some v, l => l.contains v

/-- Source function `filter_data` from `registrations.py` (lines 230-253): each non-empty
selection list filters its column in turn; an empty list applies no filter. -/
def filter_data (data : List Record) (selected_years : List Nat)
    (degree_types primary_fields countries : List String) (tiers : List Nat)
    (date_field : DateField) : List Record :=
  let f1 :=
    if selected_years.isEmpty then data
    else if date_field = .enrolldate then
      data.filter (fun r => optIsin r.academic_year selected_years)
    else
      data.filter (fun r => optIsin r.login_academic_year selected_years)
  let f2 :=
    if degree_types.isEmpty then f1
    else f1.filter (fun r => optIsin r.degreetype degree_types)
  let f3 :=
    if primary_fields.isEmpty then f2
    else f2.filter (fun r => optIsin r.primary_field primary_fields)
  let f4 :=
    if countries.isEmpty then f3
    else f3.filter (fun r => optIsin r.country countries)
  if tiers.isEmpty then f4
  else f4.filter (fun r => optIsin r.tier tiers)

/-! ## Series builder and graph callback -/

/-- Line 377, `filtered_data.dropna(subset=[selected_date_field])`. -/
def dropna (field : DateField) (l : List Record) : List Record :=
  l.filter (fun r => (r.dateFor field).isSome)

/-- Sort key for `sort_values(selected_date_field)`: the absolute day number of
the record's active date (rows reaching the sort have a non-null date). -/
def dateKeyOf (field : DateField) (r : Record) : Nat :=
  match r.dateFor field with
  | some d => toDays d
  | none => 0

/-- Selection `filtered_data[filtered_data['academic_year'] == academic_year]`
(a `NaN` year equals nothing). -/
def year_records (field : DateField) (y : Nat) (l : List Record) : List Record :=
  l.filter (fun r => r.yearFor field == some y)

/-- Sorting step `year_data.sort_values(selected_date_field)`: the year's rows in ascending
order of the active date column. -/
def year_sorted (field : DateField) (y : Nat) (l : List Record) : List Record :=
  (year_records field y l).mergeSort
    (fun a b => decide (dateKeyOf field a ≤ dateKeyOf field b))

/-- Legend / breakdown label: academic year `Y` renders as `"Y-(Y+1)"`. -/
def yearLabel (y : Nat) : String :=
  toString y ++ "-" ++ toString (y + 1)

/-- One plotted line: x values (academic-day offsets), y values (cumulative
counts), legend name, and the palette index `i % len(colors)`. -/
structure Trace where
  xs : List Int
  ys : List Nat
  name : String
  colorIndex : Nat
deriving DecidableEq, Repr

/-- The loop body of `update_graph` for one year at enumeration index `i`:
skip the year when it has no rows, otherwise sort, attach cumulative counts
`1..N` (`np.arange(1, len+1)`), and map dates to academic-day offsets. -/
def trace_for_year (field : DateField) (l : List Record) (i y : Nat) :
    Option Trace :=
  let yd := year_sorted field y l
  if yd.length = 0 then none
  else some
    { xs := yd.map (fun r => date_to_academic_days ((r.dateFor field).getD ⟨1, 1, 1⟩) y)
      ys := List.range' 1 yd.length
      name := yearLabel y
      colorIndex := i % 10 }

/-- Year-iteration policy of `update_graph` (lines 394-397 and 446-447/489):
the selected years exactly as supplied when non-empty, else the sorted
distinct values of the active year column of the filtered data. -/
def years_to_show (selected_years : List Nat) (filtered : List Record)
    (field : DateField) : List Nat :=
  if selected_years.isEmpty then
    ((filtered.filterMap (fun r => r.yearFor field)).dedup).mergeSort
      (fun a b => decide (a ≤ b))
  else selected_years

/-- Chart title chosen by `update_graph`. -/
def graphTitle (field : DateField) (selected_years : List Nat) : String :=
  match field with
  | .enrolldate =>
      if selected_years.isEmpty then "Cumulative Count by Enrollment Date - All Years"
      else if selected_years.length = 1 then
        "Cumulative Count by Enrollment Date - " ++ yearLabel (selected_years.headD 0)
      else "Cumulative Count by Enrollment Date - Years"
  | .date_last_login =>
      if selected_years.isEmpty then "Cumulative Count by Last Login Date - All Years"
      else if selected_years.length = 1 then
        "Cumulative Count by Last Login Date - " ++ yearLabel (selected_years.headD 0)
      else "Cumulative Count by Last Login Date - Selected Years"

/-- The figure data `update_graph` hands to the renderer. -/
structure Figure where
  title : String
  xaxis_title : String
  yaxis_title : String
  traces : List Trace
deriving DecidableEq, Repr

/-- The explicit empty chart of lines 379-386. -/
def no_data_figure : Figure :=
  { title := "No data available for selected filters"
    xaxis_title := "Time"
    yaxis_title := "Cumulative Count"
    traces := [] }

/-- Source callback `update_graph` (lines 371-546): filter, drop null active dates, return the
explicit no-data figure when nothing is left, otherwise one trace per year of
`years_to_show` that has rows.  The enrollment and last-login branches of the
source run the same per-year loop; they differ only in the year column
(already captured by `field`) and the title. -/
def update_graph (selected_date_field : DateField) (selected_years : List Nat)
    (selected_degree_types selected_fields selected_countries : List String)
    (selected_tiers : List Nat) (data : List Record) : Figure :=
  let fd := dropna selected_date_field
    (filter_data data selected_years selected_degree_types selected_fields
      selected_countries selected_tiers selected_date_field)
  if fd.length = 0 then no_data_figure
  else
    { title := graphTitle selected_date_field selected_years
      xaxis_title := "Timeline"
      yaxis_title := "Cumulative Count"
      traces := (years_to_show selected_years fd selected_date_field).enum.filterMap
        (fun p => trace_for_year selected_date_field fd p.1 p.2) }

/-! ## Summary statistics callback -/

/-- The Python expression `filtered_total / total_registrations * 100`
(float division): `none` models the `ZeroDivisionError` raised when the
denominator is zero. -/
def percent_value (filtered total : Nat) : Option Rat :=
  if total = 0 then none else some ((filtered : Rat) / (total : Rat) * 100)

/-- Python `sorted(values, reverse=True)` on years. -/
def sortDescNat (l : List Nat) : List Nat :=
  l.mergeSort (fun a b => decide (b ≤ a))

/-- The stats block rendered in the sidebar: filtered total, percentage of all
retained records, and per-year counts (descending years). -/
structure StatsBlock where
  filtered_total : Nat
  pct : Rat
  breakdown : List (Nat × Nat)
deriving DecidableEq, Repr

/-- Source callback `update_filter_stats` (lines 292-348).  `data` is the module-level
`registration_data`, so `total_registrations = data.length`.  The result is
`none` exactly when the percentage expression raises `ZeroDivisionError`.
With no selected years the breakdown is `groupby(year).size()` over non-null
years, descending, and only when the filtered set is non-empty; with selected
years it is one count per selected year, descending. -/
def update_filter_stats (selected_date_field : DateField)
    (selected_years : List Nat) (selected_degree_types selected_fields
    selected_countries : List String) (selected_tiers : List Nat)
    (data : List Record) : Option StatsBlock :=
  let filtered := filter_data data selected_years selected_degree_types
    selected_fields selected_countries selected_tiers selected_date_field
  let filtered_total := filtered.length
  match percent_value filtered_total data.length with
  | none => none
  | some p =>
      let breakdown :=
        if selected_years.isEmpty then
          if 0 < filtered.length then
            (sortDescNat ((filtered.filterMap
                (fun r => r.yearFor selected_date_field)).dedup)).map
              (fun y => (y, (year_records selected_date_field y filtered).length))
          else []
        else
          (sortDescNat selected_years).map
            (fun y => (y, (year_records selected_date_field y filtered).length))
      some { filtered_total := filtered_total, pct := p, breakdown := breakdown }

/-! ## Claims -/

/-- C1: for every valid date, `get_academic_year` returns the date's year when
its month is at least June and the year minus 1 otherwise; June 1 of `y` maps
to `y`, May 31 of `y` maps to `y - 1`, and the mapping is constant on every
June 1 - May 31 span. -/
theorem C1_academic_year_mapping (d : Date) (h : d.valid) :
    (6 ≤ d.month → get_academic_year d = d.year)
    ∧ (d.month < 6 → get_academic_year d = d.year - 1)
    ∧ (∀ y : Nat, get_academic_year ⟨y, 6, 1⟩ = y)
    ∧ (∀ y : Nat, get_academic_year ⟨y, 5, 31⟩ = y - 1)
    ∧ (∀ Y : Nat, ∀ d2 : Date, d2.valid → inSpan Y d → inSpan Y d2 →
        get_academic_year d = get_academic_year d2) := by
  refine ⟨fun h6 => ?_, fun h6 => ?_, fun y => ?_, fun y => ?_,
    fun Y d2 h2 hs1 hs2 => ?_⟩
  · simp [get_academic_year, h6]
  · simp only [get_academic_year]
    rw [if_neg (by omega)]
  · simp [get_academic_year]
  · simp [get_academic_year]
  · rw [get_academic_year_eq_of_inSpan h hs1, get_academic_year_eq_of_inSpan h2 hs2]

/-- Witness for C1 at the concrete date 2023-07-15. -/
theorem C1_witness : get_academic_year ⟨2023, 7, 15⟩ = 2023 :=
  (C1_academic_year_mapping ⟨2023, 7, 15⟩ (by decide)).1 (by decide)

/-- C5: for every valid calendar date, the academic-day offset relative to
June 1 of the date's own academic year lies in `[0, 365]`, leap spans
included. -/
theorem C5_offset_in_range (d : Date) (h : d.valid) :
    0 ≤ date_to_academic_days d (get_academic_year d) ∧
      date_to_academic_days d (get_academic_year d) ≤ 365 := by
  obtain ⟨h1, h2⟩ := inSpan_get_academic_year d h
  have h3 := span_length_le (get_academic_year d)
  unfold date_to_academic_days
  omega

/-- Witness for C5 at 2024-02-29, a leap day inside the 2023-2024 span. -/
theorem C5_witness :
    Date.valid ⟨2024, 2, 29⟩ ∧
      (0 ≤ date_to_academic_days ⟨2024, 2, 29⟩ (get_academic_year ⟨2024, 2, 29⟩) ∧
        date_to_academic_days ⟨2024, 2, 29⟩ (get_academic_year ⟨2024, 2, 29⟩) ≤ 365) :=
  ⟨by decide, C5_offset_in_range ⟨2024, 2, 29⟩ (by decide)⟩

/-- Modelled from the spec (section 4.3): a record satisfies the selection iff
every non-empty constraint list contains the record's value on that dimension,
with the active year dimension chosen by the view mode.  Compared below with
the source's `filter_data`. -/
def matchesSelection (selected_years : List Nat)
    (degree_types primary_fields countries : List String) (tiers : List Nat)
    (date_field : DateField) (r : Record) : Bool :=
  (selected_years.isEmpty || optIsin (r.yearFor date_field) selected_years)
  && (degree_types.isEmpty || optIsin r.degreetype degree_types)
  && (primary_fields.isEmpty || optIsin r.primary_field primary_fields)
  && (countries.isEmpty || optIsin r.country countries)
  && (tiers.isEmpty || optIsin r.tier tiers)

set_option maxHeartbeats 4000000 in
/-- Helper: `filter_data` coincides with a single filter by the conjunctive selection
predicate. -/
theorem filter_data_eq_filter (data : List Record) (ys : List Nat)
    (dt pf c : List String) (t : List Nat) (f : DateField) :
    filter_data data ys dt pf c t f
      = data.filter (matchesSelection ys dt pf c t f) := by
  have key2 : filter_data data ys dt pf c t f
      = data.filter (fun r => matchesSelection ys dt pf c t f r) := by
    cases f <;>
    rcases Bool.eq_false_or_eq_true ys.isEmpty with h1 | h1 <;>
    rcases Bool.eq_false_or_eq_true dt.isEmpty with h2 | h2 <;>
    rcases Bool.eq_false_or_eq_true pf.isEmpty with h3 | h3 <;>
    rcases Bool.eq_false_or_eq_true c.isEmpty with h4 | h4 <;>
    rcases Bool.eq_false_or_eq_true t.isEmpty with h5 | h5 <;>
      simp [filter_data, matchesSelection, Record.yearFor, h1, h2, h3, h4, h5,
        List.filter_filter, Bool.and_comm, Bool.and_left_comm, Bool.and_assoc]
  exact key2

/-- Membership in the filtered list implies membership in the input. -/
theorem mem_of_mem_filter_data {data : List Record} {ys : List Nat}
    {dt pf c : List String} {t : List Nat} {f : DateField} {r : Record}
    (h : r ∈ filter_data data ys dt pf c t f) : r ∈ data := by
  rw [filter_data_eq_filter] at h
  exact (List.mem_filter.mp h).1

/-- C2: `filter_data` returns exactly the subsequence of its input whose
records satisfy every non-empty constraint conjunctively (the year constraint
read against the view mode's year column); empty constraint lists restrict
nothing, so null-valued records pass dimensions whose constraint list is
empty. -/
theorem C2_filter_conjunction (data : List Record) (ys : List Nat)
    (dt pf c : List String) (t : List Nat) (f : DateField) :
    filter_data data ys dt pf c t f
      = data.filter (matchesSelection ys dt pf c t f)
    ∧ (filter_data data ys dt pf c t f).Sublist data := by
  have key := filter_data_eq_filter data ys dt pf c t f
  exact ⟨key, key ▸ List.filter_sublist data⟩

/-- Counterexample to C6 as stated: with the explicit selection
`[2023, 2021]` the processed year sequence is `[2023, 2021]` itself, which is
not in ascending order. -/
theorem C6_counterexample :
    years_to_show [2023, 2021] [] DateField.enrolldate = [2023, 2021]
      ∧ ¬ List.Chain' (fun a b : Nat => a ≤ b)
          (years_to_show [2023, 2021] [] DateField.enrolldate) := by
  constructor
  · rfl
  · intro hch
    rcases List.chain'_cons.mp hch with ⟨hle, _⟩
    omega

/-- C6 amended: a non-empty explicit year selection is processed exactly in
the order supplied by the caller (the code does not sort it); an empty
selection is replaced by the ascending-sorted distinct values of the active
year column present in the filtered records. -/
theorem C6_years_to_show (sel : List Nat) (filtered : List Record)
    (f : DateField) :
    (sel ≠ [] → years_to_show sel filtered f = sel)
    ∧ (sel = [] →
        (years_to_show sel filtered f).Sorted (fun a b => a ≤ b)
        ∧ (years_to_show sel filtered f).Nodup
        ∧ (∀ y : Nat, y ∈ years_to_show sel filtered f ↔
            some y ∈ filtered.map (fun r => r.yearFor f))) := by
  constructor
  · intro h
    have he : sel.isEmpty = false := by
      cases sel with
      | nil => exact absurd rfl h
      | cons a l => rfl
    simp [years_to_show, he]
  · rintro rfl
    have hsorted : (years_to_show [] filtered f).Sorted (fun a b => a ≤ b) := by
      have := @List.sorted_mergeSort Nat (fun a b : Nat => decide (a ≤ b))
        (fun a b c hab hbc => by
          simp only [decide_eq_true_eq] at *
          omega)
        (fun a b => by simp [Nat.le_total])
        ((filtered.filterMap (fun r => r.yearFor f)).dedup)
      simp only [years_to_show, List.isEmpty_nil, if_true]
      exact this.imp (fun h => by simpa using h)
    refine ⟨hsorted, ?_, ?_⟩
    · simp only [years_to_show, List.isEmpty_nil, if_true]
      exact (List.mergeSort_perm _ _).symm.nodup (List.nodup_dedup _)
    · intro y
      simp [years_to_show, List.mem_dedup, List.mem_filterMap, List.mem_map]

/-- Witness for C6 (amended) at a concrete non-empty selection and at the
empty selection. -/
theorem C6_witness :
    years_to_show [2022] [] DateField.enrolldate = [2022]
      ∧ (years_to_show [] [] DateField.enrolldate).Nodup :=
  ⟨(C6_years_to_show [2022] [] DateField.enrolldate).1 (by decide),
   ((C6_years_to_show [] [] DateField.enrolldate).2 rfl).2.1⟩

/-- C7: whenever the filtered-and-dropna record set is empty, `update_graph`
returns the designated no-data figure — title
"No data available for selected filters" with both axis titles still present
and no traces — rather than a normal chart (the embedded function is total,
so no error is raised). -/
theorem C7_no_data_state (f : DateField) (ys : List Nat) (dt pf c : List String)
    (t : List Nat) (data : List Record)
    (h : dropna f (filter_data data ys dt pf c t f) = []) :
    update_graph f ys dt pf c t data = no_data_figure
      ∧ no_data_figure.title = "No data available for selected filters"
      ∧ no_data_figure.xaxis_title = "Time"
      ∧ no_data_figure.yaxis_title = "Cumulative Count"
      ∧ no_data_figure.traces = [] := by
  refine ⟨?_, rfl, rfl, rfl, rfl⟩
  simp [update_graph, h]

/-- Witness for C7 on the empty dataset. -/
theorem C7_witness :
    update_graph DateField.enrolldate [] [] [] [] [] [] = no_data_figure :=
  (C7_no_data_state DateField.enrolldate [] [] [] [] [] [] rfl).1

/-- A record produced by a successful `load` has both dates present and on or
after the cutoff, and carries the derived academic-year columns. -/
theorem load_ok_spec {raws : List RawRecord} {recs : List Record}
    (h : load raws = .ok recs) :
    ∀ r ∈ recs,
      (∃ de, r.enrolldate = some de ∧ toDays cutoff_date ≤ toDays de)
      ∧ (∃ dl, r.date_last_login = some dl ∧ toDays cutoff_date ≤ toDays dl)
      ∧ r.academic_year = r.enrolldate.map get_academic_year
      ∧ r.login_academic_year = r.date_last_login.map get_academic_year := by
  unfold load at h
  split at h
  · exact absurd h (by simp)
  · split at h
    · exact absurd h (by simp)
    · have hrecs : recs
          = (((raws.map mkRecord).filter (fun r => geCutoff r.enrolldate)).filter
              (fun r => geCutoff r.date_last_login)).map withYears := by
        injection h with h'
        exact h'.symm
      subst hrecs
      intro r hr
      obtain ⟨r', hr', rfl⟩ := List.mem_map.mp hr
      obtain ⟨hr'', hlog⟩ := List.mem_filter.mp hr'
      obtain ⟨_, henr⟩ := List.mem_filter.mp hr''
      refine ⟨?_, ?_, rfl, rfl⟩
      · cases he : r'.enrolldate with
        | none => rw [he] at henr; exact absurd henr (by simp [geCutoff])
        | some de =>
            rw [he] at henr
            simp only [geCutoff, decide_eq_true_eq] at henr
            exact ⟨de, by simp [withYears, he], henr⟩
      · cases hl : r'.date_last_login with
        | none => rw [hl] at hlog; exact absurd hlog (by simp [geCutoff])
        | some dl =>
            rw [hl] at hlog
            simp only [geCutoff, decide_eq_true_eq] at hlog
            exact ⟨dl, by simp [withYears, hl], hlog⟩

/-- C4: every record retained by `load` — and hence every record any later
`filter_data` call can return, since filtering only selects from the retained
list — has both its enrollment date and last-login date on or after the fixed
cutoff 2021-06-01 (inclusive). -/
theorem C4_retention_cutoff (raws : List RawRecord) (recs : List Record)
    (h : load raws = .ok recs) (ys : List Nat) (dt pf c : List String)
    (t : List Nat) (f : DateField) :
    ∀ r ∈ filter_data recs ys dt pf c t f,
      (∃ de, r.enrolldate = some de ∧ toDays cutoff_date ≤ toDays de)
      ∧ (∃ dl, r.date_last_login = some dl ∧ toDays cutoff_date ≤ toDays dl) := by
  intro r hr
  obtain ⟨h1, h2, _⟩ := load_ok_spec h r (mem_of_mem_filter_data hr)
  exact ⟨h1, h2⟩

/-- A sample raw record that passes the retention cutoff. -/
def sampleRaw : RawRecord :=
  { enrolldate := RawDate.valid ⟨2022, 7, 1⟩
    date_last_login := RawDate.valid ⟨2022, 8, 1⟩
    degreetype := some "PhD"
    primary_field := some "Econometrics"
    country := some "Canada"
    tier := some 1 }

/-- The record `load` produces from `sampleRaw`. -/
def loadedSample : Record :=
  { enrolldate := some ⟨2022, 7, 1⟩
    date_last_login := some ⟨2022, 8, 1⟩
    degreetype := some "PhD"
    primary_field := some "Econometrics"
    country := some "Canada"
    tier := some 1
    academic_year := some 2022
    login_academic_year := some 2022 }

/-- Witness for C4 on the one-record dataset loaded from `sampleRaw`. -/
theorem C4_witness :
    (∃ de, loadedSample.enrolldate = some de ∧ toDays cutoff_date ≤ toDays de)
    ∧ (∃ dl, loadedSample.date_last_login = some dl ∧ toDays cutoff_date ≤ toDays dl) :=
  C4_retention_cutoff [sampleRaw] [loadedSample] rfl [] [] [] [] []
    DateField.enrolldate loadedSample (by simp [filter_data])

/-- C10: after a successful `load` every retained record has non-null
enrollment and last-login dates, so the `dropna` step before series building
removes nothing from any filtered subset. -/
theorem C10_no_null_dates (raws : List RawRecord) (recs : List Record)
    (h : load raws = .ok recs) (ys : List Nat) (dt pf c : List String)
    (t : List Nat) (f : DateField) :
    (∀ r ∈ recs, r.enrolldate.isSome ∧ r.date_last_login.isSome)
    ∧ dropna f (filter_data recs ys dt pf c t f) = filter_data recs ys dt pf c t f := by
  have hs := load_ok_spec h
  constructor
  · intro r hr
    obtain ⟨⟨de, he, _⟩, ⟨dl, hl, _⟩, _⟩ := hs r hr
    exact ⟨by simp [he], by simp [hl]⟩
  · rw [dropna, List.filter_eq_self]
    intro r hr
    obtain ⟨⟨de, he, _⟩, ⟨dl, hl, _⟩, _⟩ := hs r (mem_of_mem_filter_data hr)
    cases f <;> simp [Record.dateFor, he, hl]

/-- Witness for C10 on the one-record dataset loaded from `sampleRaw`. -/
theorem C10_witness :
    (∀ r ∈ [loadedSample], r.enrolldate.isSome ∧ r.date_last_login.isSome)
    ∧ dropna DateField.enrolldate
        (filter_data [loadedSample] [] [] [] [] [] DateField.enrolldate)
      = filter_data [loadedSample] [] [] [] [] [] DateField.enrolldate :=
  C10_no_null_dates [sampleRaw] [loadedSample] rfl [] [] [] [] [] DateField.enrolldate

/-- A raw record whose enrollment date string cannot be parsed. -/
def malformedRaw : RawRecord :=
  { enrolldate := RawDate.malformed
    date_last_login := RawDate.null
    degreetype := none
    primary_field := none
    country := none
    tier := none }

/-- Counterexample to C9 as stated: one unparseable date field makes the whole
load fail (`pd.to_datetime` raises), instead of merely excluding that
record. -/
theorem C9_counterexample : load [malformedRaw] = Except.error () := rfl

/-- C9 amended: a record whose date field is merely missing/null is excluded
from the retained set without aborting the load; only a genuinely unparseable
date string is fatal (see the counterexample). -/
theorem C9_null_dates_nonfatal (raws : List RawRecord)
    (h : ∀ r ∈ raws, r.enrolldate ≠ RawDate.malformed
      ∧ r.date_last_login ≠ RawDate.malformed) :
    ∃ recs, load raws = .ok recs
      ∧ ∀ r ∈ recs, r.enrolldate.isSome ∧ r.date_last_login.isSome := by
  have h1 : raws.any (fun r => decide (r.enrolldate = RawDate.malformed)) = false := by
    simp only [List.any_eq_false, decide_eq_true_eq]
    exact fun r hr => (h r hr).1
  have h2 : raws.any (fun r => decide (r.date_last_login = RawDate.malformed)) = false := by
    simp only [List.any_eq_false, decide_eq_true_eq]
    exact fun r hr => (h r hr).2
  have hload : load raws
      = .ok ((((raws.map mkRecord).filter (fun r => geCutoff r.enrolldate)).filter
          (fun r => geCutoff r.date_last_login)).map withYears) := by
    simp [load, h1, h2]
  refine ⟨_, hload, fun r hr => ?_⟩
  obtain ⟨⟨de, he, _⟩, ⟨dl, hl, _⟩, _⟩ := load_ok_spec hload r hr
  exact ⟨by simp [he], by simp [hl]⟩

/-- A raw record with a null last-login date. -/
def nullLoginRaw : RawRecord :=
  { enrolldate := RawDate.valid ⟨2022, 7, 2⟩
    date_last_login := RawDate.null
    degreetype := none
    primary_field := none
    country := none
    tier := none }

/-- Witness for C9 (amended): a dataset containing a null-dated record loads
successfully with that record excluded. -/
theorem C9_witness :
    ∃ recs, load [sampleRaw, nullLoginRaw] = Except.ok recs
      ∧ ∀ r ∈ recs, r.enrolldate.isSome ∧ r.date_last_login.isSome :=
  C9_null_dates_nonfatal [sampleRaw, nullLoginRaw] (by decide)

/-- Counterexample to C8 as stated: with a zero total the stats callback does
not return a 0% figure — the bare division raises (modelled by `none`); there
is no defensive guard in the code. -/
theorem C8_counterexample :
    update_filter_stats DateField.enrolldate [] [] [] [] [] [] = none
    ∧ percent_value 3 0 = none := ⟨rfl, rfl⟩

/-- C8 amended: when the total retained record count is positive the
percentage statistic equals `filteredCount / totalCount * 100`; when the
total is zero the computation raises `ZeroDivisionError` (modelled by `none`)
instead of returning 0%. -/
theorem C8_percentage (f : DateField) (ys : List Nat) (dt pf c : List String)
    (t : List Nat) (data : List Record) :
    (data ≠ [] → ∃ b, update_filter_stats f ys dt pf c t data = some b
        ∧ b.pct = ((filter_data data ys dt pf c t f).length : Rat)
            / (data.length : Rat) * 100
        ∧ b.filtered_total = (filter_data data ys dt pf c t f).length)
    ∧ (data = [] → update_filter_stats f ys dt pf c t data = none) := by
  constructor
  · intro hne
    have hlen : data.length ≠ 0 := fun hh => hne (List.length_eq_zero.mp hh)
    unfold update_filter_stats
    simp only [percent_value, if_neg hlen]
    exact ⟨_, rfl, rfl, rfl⟩
  · rintro rfl
    rfl

/-- Witness for C8 (amended) on a singleton dataset. -/
theorem C8_witness :
    ∃ b, update_filter_stats DateField.enrolldate [] [] [] [] [] [loadedSample] = some b
      ∧ b.pct = ((filter_data [loadedSample] [] [] [] [] [] DateField.enrolldate).length : Rat)
          / (([loadedSample] : List Record).length : Rat) * 100
      ∧ b.filtered_total
          = (filter_data [loadedSample] [] [] [] [] [] DateField.enrolldate).length :=
  (C8_percentage DateField.enrolldate [] [] [] [] [] [loadedSample]).1 (by simp)

/-- C3: for any filtered collection and year, the series built for that year
carries cumulative counts exactly `1, 2, ..., N` where `N` is the number of
records of that year with a non-null active date, and its rows are in
ascending order of the active date field. -/
theorem C3_cumulative_counts (filtered : List Record) (f : DateField) (y : Nat) :
    (year_sorted f y (dropna f filtered)).length
        = (filtered.filter
            (fun r => (r.dateFor f).isSome && (r.yearFor f == some y))).length
    ∧ (∀ i tr, trace_for_year f (dropna f filtered) i y = some tr →
        tr.ys = List.range' 1 ((filtered.filter
          (fun r => (r.dateFor f).isSome && (r.yearFor f == some y))).length))
    ∧ (year_sorted f y (dropna f filtered)).Pairwise
        (fun a b => dateKeyOf f a ≤ dateKeyOf f b) := by
  have hlen : (year_sorted f y (dropna f filtered)).length
      = (filtered.filter
          (fun r => (r.dateFor f).isSome && (r.yearFor f == some y))).length := by
    rw [year_sorted, List.length_mergeSort, year_records, dropna, List.filter_filter]
    exact congrArg List.length (List.filter_congr (fun r hr => Bool.and_comm _ _))
  refine ⟨hlen, ?_, ?_⟩
  · intro i tr htr
    unfold trace_for_year at htr
    by_cases hz : (year_sorted f y (dropna f filtered)).length = 0
    · rw [if_pos hz] at htr
      exact absurd htr (by simp)
    · rw [if_neg hz] at htr
      have := Option.some.inj htr
      rw [← this, ← hlen]
  · have hs := @List.sorted_mergeSort Record
      (fun a b => decide (dateKeyOf f a ≤ dateKeyOf f b))
      (fun a b c hab hbc => by
        simp only [decide_eq_true_eq] at *
        omega)
      (fun a b => by
        rcases Nat.le_total (dateKeyOf f a) (dateKeyOf f b) with h | h <;> simp [h])
      (year_records f y (dropna f filtered))
    exact hs.imp (fun h => of_decide_eq_true h)

/-- Witness for C3 on the singleton loaded dataset (July 1 is 30 days after
June 1). -/
theorem C3_witness :
    trace_for_year DateField.enrolldate (dropna DateField.enrolldate [loadedSample]) 0 2022
        = some { xs := [30], ys := [1], name := "2022-2023", colorIndex := 0 }
    ∧ ({ xs := [30], ys := [1], name := "2022-2023", colorIndex := 0 } : Trace).ys
        = List.range' 1 (([loadedSample].filter
            (fun r => (r.dateFor DateField.enrolldate).isSome
              && (r.yearFor DateField.enrolldate == some 2022))).length) :=
  by
  have hyd : year_sorted DateField.enrolldate 2022
      (dropna DateField.enrolldate [loadedSample]) = [loadedSample] := by
    simp [year_sorted, year_records, dropna, loadedSample, Record.yearFor, Record.dateFor]
  have h1 : trace_for_year DateField.enrolldate
      (dropna DateField.enrolldate [loadedSample]) 0 2022
      = some { xs := [30], ys := [1], name := "2022-2023", colorIndex := 0 } := by
    simp only [trace_for_year, hyd, List.length_cons, List.length_nil]
    norm_num [loadedSample, Record.dateFor, yearLabel, List.range']
    decide
  exact ⟨h1, (C3_cumulative_counts [loadedSample] DateField.enrolldate 2022).2.1 0 _ h1⟩
